import Mathlib

/-!
Verification of the `weather` HTTP service (Go, package `weather`, file
`data.go`, entry point `main.go`).

The development shallowly embeds the program's data model and operations:

* Go `float64` values are modelled by `GoFloat`: either a finite rational
  or one of the IEEE special values NaN / +Inf / -Inf.  Every finite
  `float64` is an exact rational, and the comparisons the program performs
  (`<=` against the exactly representable constants 10 and 25) agree with
  rational comparison, so this model is faithful on all inputs the code
  can see.  The signed zero distinction is not modelled; no code path
  depends on it.
* The dynamic JSON document `map[string]interface{}` produced by
  `json.Decode` is modelled by `GoVal` / association lists.  A Go type
  assertion `x.(T)` fails by *panicking*; extraction is therefore run in
  the `Option` monad where `none` marks a panic of the extraction code.
* `fmt.Sprintf("%v", x)` on integers and on float64 values whose shortest
  round-trip representation is plain decimal is modelled by `goFmtInt` /
  `goFmtFloat` (Go switches to exponent notation only for magnitudes
  outside [1e-4, 1e21), far outside anything exercised here).
* `time.Unix(sec, 0)` is modelled by `GoTime`, the instant as Unix epoch
  seconds.
-/

/-- Model of a Go `float64`: NaN, the two infinities, or a finite value,
represented exactly as a rational number. -/
inductive GoFloat : Type
  | nan : GoFloat
  | neginf : GoFloat
  | posinf : GoFloat
  | finite (q : ℚ) : GoFloat
deriving DecidableEq

/-- IEEE-754 `<=` on `float64` as Go evaluates it: any comparison with NaN
is false; -Inf is below and +Inf above every non-NaN value. -/
def GoFloat.le : GoFloat → GoFloat → Bool
  | .nan, _ => false
  | _, .nan => false
  | .neginf, _ => true
  | _, .neginf => false
  | _, .posinf => true
  | .posinf, _ => false
  | .finite a, .finite b => decide (a ≤ b)

/-- IEEE-754 `<` on `float64` as Go evaluates it. -/
def GoFloat.lt : GoFloat → GoFloat → Bool
  | .nan, _ => false
  | _, .nan => false
  | .neginf, .neginf => false
  | .neginf, _ => true
  | _, .neginf => false
  | .posinf, _ => false
  | _, .posinf => true
  | .finite a, .finite b => decide (a < b)

/-- Go conversion `int(x)` from `float64`: truncation toward zero.  For a
finite rational `num/den` (den > 0) the truncation toward zero is exactly
T-division of `num` by `den`.  Go leaves the conversion of NaN/±Inf
implementation-defined; the program never converts such values, and the
model maps them to 0. -/
def GoFloat.toInt : GoFloat → Int
  | .finite q => Int.tdiv q.num (q.den : Int)
  | _ => 0

/-- Model of a decoded JSON value as Go's `encoding/json` produces it
inside `interface{}`: numbers always decode to `float64`, objects to
`map[string]interface{}`, arrays to `[]interface{}`.  `null` also stands
for the nil interface obtained by reading a missing map key. -/
inductive GoVal : Type
  | null : GoVal
  | boolean (b : Bool) : GoVal
  | num (x : GoFloat) : GoVal
  | str (s : String) : GoVal
  | arr (xs : List GoVal) : GoVal
  | obj (fields : List (String × GoVal)) : GoVal

/-- Go map read `data[key]` on a decoded JSON object: a missing key yields
the nil interface value, modelled by `GoVal.null`. -/
def lookupField (fields : List (String × GoVal)) (key : String) : GoVal :=
  match fields with
  | [] => .null
  | (k, v) :: rest => if k == key then v else lookupField rest key

/-- Go type assertion `x.(map[string]interface{})`; `none` models the
panic raised when the dynamic type does not match (including nil). -/
def asObj : GoVal → Option (List (String × GoVal))
  | .obj fields => some fields
  | _ => none

/-- Go type assertion `x.([]interface{})`; `none` models the panic. -/
def asArr : GoVal → Option (List GoVal)
  | .arr xs => some xs
  | _ => none

/-- Go type assertion `x.(string)`; `none` models the panic. -/
def asStr : GoVal → Option String
  | .str s => some s
  | _ => none

/-- Go type assertion `x.(float64)`; `none` models the panic. -/
def asNum : GoVal → Option GoFloat
  | .num x => some x
  | _ => none

/-- Little-endian base-10 digits of a natural number, computed with
explicit fuel so that the definition is structural and kernel-reducible.
With fuel at least `n` it agrees with `Nat.digits 10 n`. -/
def digitsFuel : Nat → Nat → List Nat
  | 0, _ => []
  | fuel + 1, n => if n = 0 then [] else n % 10 :: digitsFuel fuel (n / 10)

/-- Little-endian base-10 digits of `n` (empty for 0). -/
def natDigitsLE (n : Nat) : List Nat :=
  digitsFuel n n

/-- Big-endian decimal digit characters of `n` (empty for 0). -/
def natChars (n : Nat) : List Char :=
  (natDigitsLE n).reverse.map Nat.digitChar

/-- Decimal rendering of a natural number as a character list, `['0']`
for zero: the digit string Go's `fmt` produces for a nonnegative
integer. -/
def natRepr (n : Nat) : List Char :=
  if n = 0 then ['0'] else natChars n

/-- Decimal rendering of an integer as a character list, with a leading
`'-'` for negative values: the digit string Go's `fmt` produces for an
`int`. -/
def intChars : Int → List Char
  | .ofNat n => natRepr n
  | .negSucc n => '-' :: natRepr (n + 1)

/-- Rendering of a Go `int` by `fmt.Sprintf("%v", i)`. -/
def goFmtInt (i : Int) : String :=
  String.mk (intChars i)

/-- Rendering of a natural number by Go's `fmt`. -/
def goFmtNat (n : Nat) : String :=
  String.mk (natRepr n)

/-- Number of factors `p` in `n`, computed with explicit fuel so that the
definition is structural and kernel-reducible. -/
def stripFuel (p : Nat) : Nat → Nat → Nat
  | 0, _ => 0
  | fuel + 1, n => if 2 ≤ p ∧ n ≠ 0 ∧ n % p = 0 then stripFuel p fuel (n / p) + 1 else 0

/-- Number of factors `p ≥ 2` in `n > 0` (`n` itself is sufficient fuel). -/
def stripCount (p n : Nat) : Nat :=
  stripFuel p n n

/-- Smallest candidate decimal exponent of a rational: the larger of the
multiplicities of 2 and 5 in its (reduced) denominator.  For a value
reachable from a `float64` the denominator is a power of 2, so `10 ^
decExp q` is the least power of ten clearing the denominator. -/
def decExp (q : ℚ) : Nat :=
  max (stripCount 2 q.den) (stripCount 5 q.den)

/-- The integer `q * 10 ^ decExp q`, exact whenever the denominator of
`q` divides `10 ^ decExp q`. -/
def decMant (q : ℚ) : Int :=
  q.num * ((10 ^ decExp q) / q.den : Nat)

/-- A rational whose reduced denominator divides `10 ^ decExp`: exactly
the values with a finite decimal expansion, which includes every value
reachable from a `float64`. -/
def IsDecimal (q : ℚ) : Prop :=
  q.den ∣ 10 ^ decExp q

instance (q : ℚ) : Decidable (IsDecimal q) := by
  unfold IsDecimal; infer_instance

/-- Zero-padded big-endian digit characters of `v` of width `e` (the
fractional block of a decimal rendering). -/
def padChars (e v : Nat) : List Char :=
  List.replicate (e - (natChars v).length) '0' ++ natChars v

/-- Decoder for the decimal renderings: numeric value of a big-endian
digit-character list (used only in proofs, to show the renderings are
lossless). -/
def decodeNat (cs : List Char) : Nat :=
  Nat.ofDigits 10 ((cs.map fun c => c.toNat - 48).reverse)

/-- Rendering of a Go `float64` by `fmt.Sprintf("%v", x)`, i.e. the
shortest round-trip representation.  Modelled exactly for special values
and for finite values whose shortest representation is plain decimal
(Go uses exponent notation only for magnitudes outside [1e-4, 1e21),
which no quantity in this program approaches). -/
def goFmtFloat : GoFloat → String
  | .nan => "NaN"
  | .posinf => "+Inf"
  | .neginf => "-Inf"
  | .finite q =>
    let e := decExp q
    if e = 0 then String.mk (intChars (decMant q))
    else
      String.mk ((if decMant q < 0 then ['-'] else []) ++
        natRepr ((decMant q).natAbs / 10 ^ e) ++
        '.' :: padChars e ((decMant q).natAbs % 10 ^ e))

/-- Model of `time.Unix(sec, 0)`: the instant, identified by its Unix
epoch seconds (calendar rendering and time zone are not modelled). -/
structure GoTime : Type where
  unixSec : Int
deriving DecidableEq

/-- The `WeatherData` struct of the package (JSON tags in comments of the
source): all presentation fields are strings, sunrise/sunset are
`time.Time` values. -/
structure WeatherData : Type where
  weatherDescription : String
  temperature : String
  weatherType : String
  visibility : String
  windSpeed : String
  windDirection : String
  cloudCoverage : String
  sunrise : GoTime
  sunset : GoTime
deriving DecidableEq

/-- The helper `classifyWeather` of `data.go`: temperature at most 10 is
"cold", otherwise at most 25 is "moderate", otherwise "hot". -/
def classifyWeather (temperature : GoFloat) : String :=
  if GoFloat.le temperature (.finite 10) then "cold"
  else if GoFloat.le temperature (.finite 25) then "moderate"
  else "hot"

/-- The helper `extractWeatherInfo` of `data.go`: reads
`weather[0].description` and `main.temp` through unchecked type
assertions and indexing; `none` models the panic on a shape mismatch
(`weatherArray.head?` models the index-out-of-range panic of
`weatherArray[0]`). -/
def extractWeatherInfo (data : List (String × GoVal)) : Option (String × GoFloat) := do
  let weatherArray ← asArr (lookupField data "weather")
  let first ← weatherArray.head?
  let firstObj ← asObj first
  let weatherDescription ← asStr (lookupField firstObj "description")
  let mainObj ← asObj (lookupField data "main")
  let temperature ← asNum (lookupField mainObj "temp")
  some (weatherDescription, temperature)

/-- The helper `extractVisibility` of `data.go`:
`int(data["visibility"].(float64)) / 1000` rendered as "<v> KM"; the
division is Go integer division, truncation toward zero. -/
def extractVisibility (data : List (String × GoVal)) : Option String := do
  let v ← asNum (lookupField data "visibility")
  let visibility := Int.tdiv (GoFloat.toInt v) 1000
  some (goFmtInt visibility ++ " KM")

/-- The helper `extractWindInfo` of `data.go`: reads `wind.speed` and
`wind.deg`, truncating the direction to `int`, and renders both. -/
def extractWindInfo (data : List (String × GoVal)) : Option (String × String) := do
  let windData ← asObj (lookupField data "wind")
  let windSpeed ← asNum (lookupField windData "speed")
  let deg ← asNum (lookupField windData "deg")
  let windDirection := GoFloat.toInt deg
  some (goFmtFloat windSpeed ++ " meter/sec", goFmtInt windDirection ++ " degrees")

/-- The helper `extractCloudCoverage` of `data.go`: reads `clouds.all`,
truncates to `int`, renders as "<v> percentage". -/
def extractCloudCoverage (data : List (String × GoVal)) : Option String := do
  let cloudData ← asObj (lookupField data "clouds")
  let allVal ← asNum (lookupField cloudData "all")
  let cloudCoverage := GoFloat.toInt allVal
  some (goFmtInt cloudCoverage ++ " percentage")

/-- The helper `extractSunriseSunset` of `data.go`: reads `sys.sunrise`
and `sys.sunset`, converts to `int64`, and builds the `time.Unix`
instants. -/
def extractSunriseSunset (data : List (String × GoVal)) : Option (GoTime × GoTime) := do
  let sysObj ← asObj (lookupField data "sys")
  let sunriseVal ← asNum (lookupField sysObj "sunrise")
  let sunsetVal ← asNum (lookupField sysObj "sunset")
  some (⟨GoFloat.toInt sunriseVal⟩, ⟨GoFloat.toInt sunsetVal⟩)

/-- The extraction and struct-construction part of `getWeather` in
`data.go`, applied to a successfully decoded JSON document: runs the five
extract helpers in source order, classifies the temperature, and fills
every field of `WeatherData`.  `none` models a panic of any extraction
step. -/
def buildWeatherData (data : List (String × GoVal)) : Option WeatherData := do
  let info ← extractWeatherInfo data
  let visibility ← extractVisibility data
  let wind ← extractWindInfo data
  let cloudCoverage ← extractCloudCoverage data
  let sunTimes ← extractSunriseSunset data
  let weatherType := classifyWeather info.2
  some
    { weatherDescription := info.1
      temperature := goFmtFloat info.2 ++ " Celsius"
      weatherType := weatherType
      visibility := visibility
      windSpeed := wind.1
      windDirection := wind.2
      cloudCoverage := cloudCoverage
      sunrise := sunTimes.1
      sunset := sunTimes.2 }

/-- The API key compiled into `data.go` (`const API_KEY = ...`). -/
def API_KEY : String := "346f820b8b57367bb052d099256c939d"

/-- Rendering of a `float64` by `fmt.Sprintf("%.6f", x)`: fixed-point
with exactly six fractional digits.  The value is rounded to six decimals;
rounding of exact midpoints cannot disagree with Go's correctly rounded
output on this model's decimal rationals, because no `float64` sits
exactly on a six-decimal midpoint (that would need the factor 5⁷ in a
dyadic denominator). -/
def goFmt6 : GoFloat → String
  | .nan => "NaN"
  | .posinf => "+Inf"
  | .neginf => "-Inf"
  | .finite q =>
    let r : Nat := (round (|q| * 10 ^ 6)).toNat
    String.mk ((if q < 0 then ['-'] else []) ++
      natRepr (r / 10 ^ 6) ++ '.' :: padChars 6 (r % 10 ^ 6))

/-- The request URL built at the top of `getWeather` in `data.go`:
`fmt.Sprintf("https://api.openweathermap.org/data/2.5/weather?lat=%.6f&lon=%.6f&appid=%s&units=metric", lat, lon, API_KEY)`. -/
def buildURL (lat lon : GoFloat) : String :=
  "https://api.openweathermap.org/data/2.5/weather?lat=" ++ goFmt6 lat ++
    "&lon=" ++ goFmt6 lon ++ "&appid=" ++ API_KEY ++ "&units=metric"

/-- What the environment delivers for one upstream HTTP GET: a transport
failure of `http.Get`, a body `json.Decode` rejects, or a decoded JSON
object. -/
inductive UpstreamData : Type
  | transportFailure : UpstreamData
  | decodeFailure : UpstreamData
  | doc (d : List (String × GoVal)) : UpstreamData

/-- The error values the package can return (it defines no error type of
its own): the transport error propagated from `http.Get`, the decode
error propagated from `json.Decode`, and `context.DeadlineExceeded` from
`ctx.Err()`. -/
inductive GoError : Type
  | transportError : GoError
  | decodeError : GoError
  | deadlineExceeded : GoError
deriving DecidableEq

/-- How one call of `getWeather` ends.  The function body has exactly
three kinds of exit: returning `(data, nil)`, returning `(nil, err)` for
the two checked failures, or panicking inside an extract helper (an
unchecked type assertion or index on an unexpected document shape — the
code never returns in that case). -/
inductive FetchOutcome : Type
  | ok (w : WeatherData) : FetchOutcome
  | err (e : GoError) : FetchOutcome
  | panicked : FetchOutcome
deriving DecidableEq

/-- The function `getWeather` of `data.go`, with the network modelled as
an oracle from the request URL to what the wire delivers: builds the URL,
performs the GET (transport failure returns the error), decodes
(failure returns the error), then extracts and assembles, panicking on a
shape mismatch. -/
def getWeather (lat lon : GoFloat) (upstream : String → UpstreamData) : FetchOutcome :=
  let url := buildURL lat lon
  match upstream url with
  | .transportFailure => .err .transportError
  | .decodeFailure => .err .decodeError
  | .doc d =>
    match buildWeatherData d with
    | some w => .ok w
    | none => .panicked

/-- Numeric value of a list of decimal digit characters, most significant
first. -/
def digitsToNat (cs : List Char) : Nat :=
  cs.foldl (fun acc c => acc * 10 + (c.toNat - 48)) 0

/-- Case-insensitive comparison of a character list against a lowercase
word, used for the special values accepted by `strconv.ParseFloat`. -/
def lowerEq (cs : List Char) (w : List Char) : Bool :=
  cs.map Char.toLower == w

/-- Exact rational value of a parsed decimal mantissa and exponent:
`sign * (intpart.fracpart) * 10^exp`. -/
def mantissaVal (sign : Int) (ip fp : List Char) (e : Int) : ℚ :=
  ((sign * (digitsToNat ip * 10 ^ fp.length + digitsToNat fp) : Int) : ℚ) *
    (10 : ℚ) ^ (e - fp.length)

/-- Exponent-suffix part of the `strconv.ParseFloat` grammar: an optional
`e`/`E`, an optional sign, and a nonempty digit run consuming the rest of
the input. -/
def parseExpPart (sign : Int) (ip fp : List Char) (rest : List Char) : Option GoFloat :=
  match rest with
  | [] => some (.finite (mantissaVal sign ip fp 0))
  | c :: t =>
    if c = 'e' ∨ c = 'E' then
      let (esign, t1) : Int × List Char :=
        match t with
        | '+' :: r => (1, r)
        | '-' :: r => (-1, r)
        | r => (1, r)
      let ds := t1.takeWhile Char.isDigit
      let t2 := t1.dropWhile Char.isDigit
      if ds.isEmpty ∨ ¬ t2.isEmpty then none
      else some (.finite (mantissaVal sign ip fp (esign * digitsToNat ds)))
    else none

/-- Model of `strconv.ParseFloat(s, 64)` as used by `WeatherHandler`:
`none` is a parse error (including the empty string obtained for a
missing query parameter).  The decimal grammar — optional sign, digits
with an optional dot, optional exponent — and the special words
Inf/Infinity/NaN are modelled; the hexadecimal-float and
digit-underscore forms Go also accepts are not, and the exact rational
value is kept in place of the nearest `float64` (range overflow to ±Inf
is not modelled).  The handler only ever branches on success versus
failure of ordinary decimal inputs, where the model is exact. -/
def goParseFloat (s : String) : Option GoFloat :=
  match s.data with
  | [] => none
  | l =>
    let (sign, rest) : Int × List Char :=
      match l with
      | '+' :: t => (1, t)
      | '-' :: t => (-1, t)
      | t => (1, t)
    if lowerEq rest ['i', 'n', 'f'] ∨ lowerEq rest ['i', 'n', 'f', 'i', 'n', 'i', 't', 'y'] then
      some (if sign < 0 then .neginf else .posinf)
    else if lowerEq rest ['n', 'a', 'n'] then some .nan
    else
      let ip := rest.takeWhile Char.isDigit
      let rest1 := rest.dropWhile Char.isDigit
      match rest1 with
      | '.' :: rest2 =>
        let fp := rest2.takeWhile Char.isDigit
        let rest3 := rest2.dropWhile Char.isDigit
        if ip.isEmpty ∧ fp.isEmpty then none
        else parseExpPart sign ip fp rest3
      | _ =>
        if ip.isEmpty then none
        else parseExpPart sign ip [] rest1

/-- The deadline the handler creates:
`context.WithTimeout(context.Background(), 5*time.Second)`, in seconds. -/
def timeoutSeconds : ℚ := 5

/-- One request's upstream behaviour for the timed model: how many
seconds the spawned `getWeather` call takes, and how it ends
(a `FetchOutcome`, i.e. the value of `getWeather` at this request's
coordinates and network). -/
structure TimedFetch : Type where
  latency : ℚ
  outcome : FetchOutcome

/-- How the wait in `getWeatherWithContext` ends for the caller: a result
or an error at some instant, or never — the spawned goroutine panicked
before the deadline and the Go runtime tears the whole process down, so
control never returns to the select. -/
inductive CtxResult : Type
  | ok (t : ℚ) (w : WeatherData) : CtxResult
  | err (t : ℚ) (e : GoError) : CtxResult
  | crashed : CtxResult
deriving DecidableEq

/-- The function `getWeatherWithContext` of `data.go` over the timed
model: the select returns `ctx.Err()` when the 5-second deadline fires
first, otherwise it delivers what the spawned `getWeather` call sent on
its channel — unless that call panicked, which by Go runtime semantics
(an unrecovered panic in any goroutine) aborts the process.  When the
deadline and the goroutine are ready at the same instant the model lets
the goroutine win; the claims only exercise strict orderings. -/
def getWeatherWithContext (u : TimedFetch) : CtxResult :=
  if timeoutSeconds < u.latency then .err timeoutSeconds .deadlineExceeded
  else
    match u.outcome with
    | .ok w => .ok u.latency w
    | .err e => .err u.latency e
    | .panicked => .crashed

/-- Body of an HTTP response the handler writes: the plain-text message
passed to `http.Error`, or the JSON encoding of a `WeatherData` value
(kept symbolic; no claim inspects the serialized form). -/
inductive RespBody : Type
  | text (s : String) : RespBody
  | jsonOf (w : WeatherData) : RespBody
deriving DecidableEq

/-- Whether a fetch outcome is the panicking one. -/
def FetchOutcome.isPanicked : FetchOutcome → Bool
  | .panicked => true
  | _ => false

/-- Observable effect of one request: the response written, if any, as
(seconds after the handler started, status code, body), and whether the
server process is still alive afterwards. -/
structure ServerOutcome : Type where
  response : Option (ℚ × Nat × RespBody)
  processAlive : Bool
deriving DecidableEq

/-- The function `WeatherHandler` of `data.go` over the timed model.  The
two query parameters arrive as the raw strings of `r.URL.Query().Get`
(the empty string when the parameter is missing); `u` is the behaviour of
this request's upstream fetch.  Mirrors the source: `lat` is parsed
first and failure answers 400 "Invalid latitude" at once, then `lon`
likewise, then the fetch runs under the 5-second context; a fetch error
(or the deadline) answers 500 "Failed to fetch weather data", success
answers 200 with the JSON-encoded data.  A panicking fetch goroutine
kills the process: after the deadline answer the crash still happens
(`processAlive = false`), and before the deadline no response is ever
written. -/
def WeatherHandler (latS lonS : String) (u : TimedFetch) : ServerOutcome :=
  match goParseFloat latS with
  | none => ⟨some (0, 400, .text "Invalid latitude"), true⟩
  | some _ =>
    match goParseFloat lonS with
    | none => ⟨some (0, 400, .text "Invalid longitude"), true⟩
    | some _ =>
      match getWeatherWithContext u with
      | .ok t w => ⟨some (t, 200, .jsonOf w), true⟩
      | .err t _ => ⟨some (t, 500, .text "Failed to fetch weather data"), !u.outcome.isPanicked⟩
      | .crashed => ⟨none, false⟩

/-- The well-formed provider response of the spec's round-trip fixture:
description "clear sky", temp 15.3, visibility 8000, wind 3.1 m/s at
180°, clouds 40 %, sunrise/sunset 1700000000 / 1700040000. -/
def fixtureDoc : List (String × GoVal) :=
  [("weather", .arr [.obj [("description", .str "clear sky")]]),
   ("main", .obj [("temp", .num (.finite (mkRat 153 10)))]),
   ("visibility", .num (.finite 8000)),
   ("wind", .obj [("speed", .num (.finite (mkRat 31 10))), ("deg", .num (.finite 180))]),
   ("clouds", .obj [("all", .num (.finite 40))]),
   ("sys", .obj [("sunrise", .num (.finite 1700000000)), ("sunset", .num (.finite 1700040000))])]

/-- The spec's missing-field fixture: the same document with no `wind`
key. -/
def fixtureNoWind : List (String × GoVal) :=
  [("weather", .arr [.obj [("description", .str "clear sky")]]),
   ("main", .obj [("temp", .num (.finite (mkRat 153 10)))]),
   ("visibility", .num (.finite 8000)),
   ("clouds", .obj [("all", .num (.finite 40))]),
   ("sys", .obj [("sunrise", .num (.finite 1700000000)), ("sunset", .num (.finite 1700040000))])]

/-- The `WeatherData` value the spec's round-trip fixture is expected to
produce. -/
def fixtureSummary : WeatherData :=
  { weatherDescription := "clear sky", temperature := "15.3 Celsius",
    weatherType := "moderate", visibility := "8 KM",
    windSpeed := "3.1 meter/sec", windDirection := "180 degrees",
    cloudCoverage := "40 percentage",
    sunrise := ⟨1700000000⟩, sunset := ⟨1700040000⟩ }

/-- Spec-side accessor (following the spec's data model, used to state
that formatting only renders values): the raw `main.temp` number of a
document. -/
def rawTemperature (data : List (String × GoVal)) : Option GoFloat := do
  let mainObj ← asObj (lookupField data "main")
  asNum (lookupField mainObj "temp")

/-- Spec-side accessor: the raw `visibility` number of a document. -/
def rawVisibility (data : List (String × GoVal)) : Option GoFloat :=
  asNum (lookupField data "visibility")

/-- Spec-side accessor: the raw `wind.speed` number of a document. -/
def rawWindSpeed (data : List (String × GoVal)) : Option GoFloat := do
  let windData ← asObj (lookupField data "wind")
  asNum (lookupField windData "speed")

/-- Spec-side accessor: the raw `wind.deg` number of a document. -/
def rawWindDeg (data : List (String × GoVal)) : Option GoFloat := do
  let windData ← asObj (lookupField data "wind")
  asNum (lookupField windData "deg")

/-- Spec-side accessor: the raw `clouds.all` number of a document. -/
def rawCloudAll (data : List (String × GoVal)) : Option GoFloat := do
  let cloudData ← asObj (lookupField data "clouds")
  asNum (lookupField cloudData "all")

theorem digitsFuel_eq_digits (fuel : Nat) : ∀ n : Nat, n ≤ fuel → digitsFuel fuel n = Nat.digits 10 n := by
  induction fuel with
  | zero =>
    intro n hn
    interval_cases n
    simp [digitsFuel]
  | succ fuel ih =>
    intro n hn
    by_cases h0 : n = 0
    · subst h0; simp [digitsFuel]
    · rw [digitsFuel, if_neg h0, Nat.digits_def' (by norm_num : (1:ℕ) < 10) (Nat.pos_of_ne_zero h0),
        ih (n / 10) ?_]
      have := Nat.div_lt_self (Nat.pos_of_ne_zero h0) (by norm_num : (1:ℕ) < 10)
      omega

theorem natDigitsLE_eq_digits (n : Nat) : natDigitsLE n = Nat.digits 10 n :=
  digitsFuel_eq_digits n n le_rfl

theorem natChars_map_val (n : Nat) : (natChars n).map (fun c => c.toNat - 48) = (Nat.digits 10 n).reverse := by
  have hlt : ∀ d ∈ (Nat.digits 10 n).reverse, d < 10 := by
    intro d hd
    exact Nat.digits_lt_base (by norm_num) (List.mem_reverse.mp hd)
  rw [natChars, natDigitsLE_eq_digits, List.map_map]
  rw [List.map_congr_left (g := id) ?_, List.map_id]
  intro d hd
  have h10 := hlt d hd
  interval_cases d <;> rfl

theorem decode_natChars (n : Nat) : decodeNat (natChars n) = n := by
  rw [decodeNat, natChars_map_val, List.reverse_reverse, Nat.ofDigits_digits]

theorem decode_natRepr (n : Nat) : decodeNat (natRepr n) = n := by
  by_cases h0 : n = 0
  · subst h0; rfl
  · rw [natRepr, if_neg h0, decode_natChars]

theorem natRepr_injective {m n : Nat} (h : natRepr m = natRepr n) : m = n := by
  have := congrArg decodeNat h
  rwa [decode_natRepr, decode_natRepr] at this

theorem natRepr_ne_nil (n : Nat) : natRepr n ≠ [] := by
  by_cases h0 : n = 0
  · subst h0; simp [natRepr]
  · rw [natRepr, if_neg h0, natChars, natDigitsLE_eq_digits]
    simp [Nat.digits_ne_nil_iff_ne_zero, h0]

theorem mem_natChars_isDigit {n : Nat} {c : Char} (hc : c ∈ natChars n) : c.isDigit = true := by
  rw [natChars, natDigitsLE_eq_digits] at hc
  obtain ⟨d, hd, rfl⟩ := List.mem_map.mp hc
  have h10 : d < 10 := Nat.digits_lt_base (by norm_num) (List.mem_reverse.mp hd)
  interval_cases d <;> rfl

theorem mem_natRepr_isDigit {n : Nat} {c : Char} (hc : c ∈ natRepr n) : c.isDigit = true := by
  by_cases h0 : n = 0
  · subst h0
    have h00 : natRepr 0 = ['0'] := rfl
    rw [h00, List.mem_singleton] at hc
    rw [hc]; rfl
  · rw [natRepr, if_neg h0] at hc
    exact mem_natChars_isDigit hc

theorem intChars_injective {i j : Int} (h : intChars i = intChars j) : i = j := by
  have hdigit : ∀ (n : Nat) (l : List Char), natRepr n = '-' :: l → False := by
    intro n l hl
    have : ('-' : Char) ∈ natRepr n := by rw [hl]; exact List.mem_cons_self _ _
    have := mem_natRepr_isDigit this
    simp at this
  match i, j with
  | .ofNat m, .ofNat n =>
    have h' : natRepr m = natRepr n := h
    rw [natRepr_injective h']
  | .ofNat m, .negSucc n =>
    have h' : natRepr m = '-' :: natRepr (n + 1) := h
    exact (hdigit m _ h').elim
  | .negSucc m, .ofNat n =>
    have h' : natRepr n = '-' :: natRepr (m + 1) := h.symm
    exact (hdigit n _ h').elim
  | .negSucc m, .negSucc n =>
    have h' : '-' :: natRepr (m + 1) = '-' :: natRepr (n + 1) := h
    injection h' with h1 h2
    have hmn := natRepr_injective h2
    have hm : m = n := by omega
    rw [hm]

theorem goFmtInt_injective {i j : Int} (h : goFmtInt i = goFmtInt j) : i = j :=
  intChars_injective (by simpa using congrArg String.data h)

theorem mem_intChars {i : Int} {c : Char} (hc : c ∈ intChars i) : c.isDigit = true ∨ c = '-' := by
  match i with
  | .ofNat n => exact Or.inl (mem_natRepr_isDigit hc)
  | .negSucc n =>
    rcases List.mem_cons.mp hc with h | h
    · exact Or.inr h
    · exact Or.inl (mem_natRepr_isDigit h)

theorem natChars_length_le {v e : Nat} (h : v < 10 ^ e) : (natChars v).length ≤ e := by
  rw [natChars, List.length_map, List.length_reverse, natDigitsLE_eq_digits]
  by_cases h0 : v = 0
  · subst h0; simp
  · rw [Nat.digits_len 10 v (by norm_num) h0]
    have := Nat.log_lt_of_lt_pow h0 h
    omega

theorem padChars_length {v e : Nat} (h : v < 10 ^ e) : (padChars e v).length = e := by
  rw [padChars, List.length_append, List.length_replicate]
  have := natChars_length_le h
  omega

theorem mem_padChars_isDigit {v e : Nat} {c : Char} (hc : c ∈ padChars e v) : c.isDigit = true := by
  rcases List.mem_append.mp hc with h | h
  · rw [List.eq_of_mem_replicate h]; rfl
  · exact mem_natChars_isDigit h

theorem ofDigits_replicate_zero (k : Nat) : Nat.ofDigits 10 (List.replicate k 0) = 0 := by
  induction k with
  | zero => rfl
  | succ k ih => simp [List.replicate_succ, Nat.ofDigits_cons, ih]

theorem decode_padChars (e v : Nat) : decodeNat (padChars e v) = v := by
  rw [decodeNat, padChars, List.map_append, List.reverse_append, natChars_map_val,
    List.reverse_reverse]
  have hrep : (List.replicate (e - (natChars v).length) '0').map (fun c => c.toNat - 48) =
      List.replicate (e - (natChars v).length) 0 := by
    rw [List.map_replicate]; rfl
  rw [hrep, List.reverse_replicate, Nat.ofDigits_append, Nat.ofDigits_digits,
    ofDigits_replicate_zero]
  ring

theorem append_dot_inj : ∀ {a₁ a₂ b₁ b₂ : List Char},
    a₁ ++ '.' :: b₁ = a₂ ++ '.' :: b₂ → ('.' : Char) ∉ a₁ → ('.' : Char) ∉ a₂ →
    a₁ = a₂ ∧ b₁ = b₂ := by
  intro a₁
  induction a₁ with
  | nil =>
    intro a₂ b₁ b₂ h h₁ h₂
    match a₂ with
    | [] =>
      simp only [List.nil_append] at h
      injection h with h1 h2
      exact ⟨rfl, h2⟩
    | c :: t =>
      simp only [List.nil_append, List.cons_append] at h
      injection h with h1 h2
      exact absurd (h1 ▸ List.mem_cons_self c t) h₂
  | cons c t ih =>
    intro a₂ b₁ b₂ h h₁ h₂
    match a₂ with
    | [] =>
      simp only [List.cons_append, List.nil_append] at h
      injection h with h1 h2
      exact absurd (h1.symm ▸ List.mem_cons_self c t) h₁
    | c₂ :: t₂ =>
      simp only [List.cons_append] at h
      injection h with h1 h2
      have ht₁ : ('.' : Char) ∉ t := fun hm => h₁ (List.mem_cons_of_mem c hm)
      have ht₂ : ('.' : Char) ∉ t₂ := fun hm => h₂ (List.mem_cons_of_mem c₂ hm)
      obtain ⟨ha, hb⟩ := ih h2 ht₁ ht₂
      exact ⟨by rw [h1, ha], hb⟩

theorem dot_not_mem_natRepr (n : Nat) : ('.' : Char) ∉ natRepr n := by
  intro hm
  have := mem_natRepr_isDigit hm
  simp at this

theorem dot_not_mem_intChars (i : Int) : ('.' : Char) ∉ intChars i := by
  intro hm
  rcases mem_intChars hm with h | h
  · simp at h
  · simp at h

theorem decExp_of_den_one {q : ℚ} (h : q.den = 1) : decExp q = 0 := by
  rw [decExp, h]
  decide

theorem isDecimal_cast_decMant {q : ℚ} (h : IsDecimal q) :
    ((decMant q : Int) : ℚ) = q * (10 : ℚ) ^ decExp q := by
  obtain ⟨k, hk⟩ := h
  have hden : q.den ≠ 0 := q.den_nz
  have hdiv : (10 ^ decExp q) / q.den = k := by
    rw [hk, Nat.mul_div_cancel_left k (Nat.pos_of_ne_zero hden)]
  rw [decMant, hdiv]
  have hcast : ((10 : ℚ) ^ decExp q) = ((10 ^ decExp q : ℕ) : ℚ) := by push_cast; ring
  rw [hcast, hk]
  push_cast
  rw [← mul_assoc, Rat.mul_den_eq_num]

theorem goFmtFloat_finite_def (q : ℚ) :
    goFmtFloat (.finite q) =
      if decExp q = 0 then String.mk (intChars (decMant q))
      else
        String.mk ((if decMant q < 0 then ['-'] else []) ++
          natRepr ((decMant q).natAbs / 10 ^ decExp q) ++
          '.' :: padChars (decExp q) ((decMant q).natAbs % 10 ^ decExp q)) := rfl

theorem eq_of_decExp_decMant {q₁ q₂ : ℚ} (h₁ : IsDecimal q₁) (h₂ : IsDecimal q₂)
    (he : decExp q₁ = decExp q₂) (hm : decMant q₁ = decMant q₂) : q₁ = q₂ := by
  have c₁ := isDecimal_cast_decMant h₁
  have c₂ := isDecimal_cast_decMant h₂
  rw [hm, he] at c₁
  have hq : q₁ * (10 : ℚ) ^ decExp q₂ = q₂ * (10 : ℚ) ^ decExp q₂ := c₁.symm.trans c₂
  exact mul_right_cancel₀ (pow_ne_zero _ (by norm_num)) hq

theorem render_frac_inj {m₁ m₂ : Int} {e₁ e₂ : Nat}
    (h : (if m₁ < 0 then ['-'] else []) ++ natRepr (m₁.natAbs / 10 ^ e₁) ++
          '.' :: padChars e₁ (m₁.natAbs % 10 ^ e₁)
        = (if m₂ < 0 then ['-'] else []) ++ natRepr (m₂.natAbs / 10 ^ e₂) ++
          '.' :: padChars e₂ (m₂.natAbs % 10 ^ e₂)) :
    m₁ = m₂ ∧ e₁ = e₂ := by
  have hmod₁ : m₁.natAbs % 10 ^ e₁ < 10 ^ e₁ := Nat.mod_lt _ (Nat.pos_pow_of_pos _ (by norm_num))
  have hmod₂ : m₂.natAbs % 10 ^ e₂ < 10 ^ e₂ := Nat.mod_lt _ (Nat.pos_pow_of_pos _ (by norm_num))
  have main : natRepr (m₁.natAbs / 10 ^ e₁) ++ '.' :: padChars e₁ (m₁.natAbs % 10 ^ e₁)
        = natRepr (m₂.natAbs / 10 ^ e₂) ++ '.' :: padChars e₂ (m₂.natAbs % 10 ^ e₂) →
      m₁.natAbs = m₂.natAbs ∧ e₁ = e₂ := by
    intro hmain
    obtain ⟨ha, hb⟩ := append_dot_inj hmain (dot_not_mem_natRepr _) (dot_not_mem_natRepr _)
    have hdiv : m₁.natAbs / 10 ^ e₁ = m₂.natAbs / 10 ^ e₂ := natRepr_injective ha
    have hlen := congrArg List.length hb
    rw [padChars_length hmod₁, padChars_length hmod₂] at hlen
    subst hlen
    have hmod := congrArg decodeNat hb
    rw [decode_padChars, decode_padChars] at hmod
    refine ⟨?_, rfl⟩
    have d₁ := Nat.div_add_mod m₁.natAbs (10 ^ e₁)
    have d₂ := Nat.div_add_mod m₂.natAbs (10 ^ e₁)
    rw [hdiv, hmod] at d₁
    omega
  have hsign : ∀ (n : Nat) (l rest : List Char), natRepr n ++ rest = '-' :: l → False := by
    intro n l rest hl
    obtain ⟨c, t, hct⟩ := List.exists_cons_of_ne_nil (natRepr_ne_nil n)
    rw [hct] at hl
    simp only [List.cons_append] at hl
    injection hl with h1 _
    have : ('-' : Char) ∈ natRepr n := by rw [hct, ← h1]; exact List.mem_cons_self _ _
    have := mem_natRepr_isDigit this
    simp at this
  by_cases hs₁ : m₁ < 0 <;> by_cases hs₂ : m₂ < 0
  · rw [if_pos hs₁, if_pos hs₂, List.singleton_append, List.singleton_append] at h
    injection h with _ h2
    obtain ⟨habs, he⟩ := main h2
    exact ⟨by omega, he⟩
  · rw [if_pos hs₁, if_neg hs₂, List.singleton_append, List.nil_append] at h
    exact (hsign _ _ _ h.symm).elim
  · rw [if_neg hs₁, if_pos hs₂, List.nil_append, List.singleton_append] at h
    exact (hsign _ _ _ h).elim
  · rw [if_neg hs₁, if_neg hs₂, List.nil_append, List.nil_append] at h
    obtain ⟨habs, he⟩ := main h
    exact ⟨by omega, he⟩

theorem goFmtFloat_finite_injective {q₁ q₂ : ℚ} (h₁ : IsDecimal q₁) (h₂ : IsDecimal q₂)
    (h : goFmtFloat (.finite q₁) = goFmtFloat (.finite q₂)) : q₁ = q₂ := by
  rw [goFmtFloat_finite_def, goFmtFloat_finite_def] at h
  by_cases he₁ : decExp q₁ = 0 <;> by_cases he₂ : decExp q₂ = 0
  · rw [if_pos he₁, if_pos he₂] at h
    have hd : intChars (decMant q₁) = intChars (decMant q₂) := by
      simpa using congrArg String.data h
    exact eq_of_decExp_decMant h₁ h₂ (he₁.trans he₂.symm) (intChars_injective hd)
  · rw [if_pos he₁, if_neg he₂] at h
    have hd : intChars (decMant q₁) =
        (if decMant q₂ < 0 then ['-'] else []) ++ natRepr ((decMant q₂).natAbs / 10 ^ decExp q₂) ++
          '.' :: padChars (decExp q₂) ((decMant q₂).natAbs % 10 ^ decExp q₂) := by
      simpa using congrArg String.data h
    have hdot : ('.' : Char) ∈ intChars (decMant q₁) := by
      rw [hd]
      exact List.mem_append.mpr (Or.inr (List.mem_cons_self _ _))
    exact (dot_not_mem_intChars _ hdot).elim
  · rw [if_neg he₁, if_pos he₂] at h
    have hd : (if decMant q₁ < 0 then ['-'] else []) ++ natRepr ((decMant q₁).natAbs / 10 ^ decExp q₁) ++
          '.' :: padChars (decExp q₁) ((decMant q₁).natAbs % 10 ^ decExp q₁) =
        intChars (decMant q₂) := by
      simpa using congrArg String.data h
    have hdot : ('.' : Char) ∈ intChars (decMant q₂) := by
      rw [← hd]
      exact List.mem_append.mpr (Or.inr (List.mem_cons_self _ _))
    exact (dot_not_mem_intChars _ hdot).elim
  · rw [if_neg he₁, if_neg he₂] at h
    have hd : (if decMant q₁ < 0 then ['-'] else []) ++ natRepr ((decMant q₁).natAbs / 10 ^ decExp q₁) ++
          '.' :: padChars (decExp q₁) ((decMant q₁).natAbs % 10 ^ decExp q₁)
        = (if decMant q₂ < 0 then ['-'] else []) ++ natRepr ((decMant q₂).natAbs / 10 ^ decExp q₂) ++
          '.' :: padChars (decExp q₂) ((decMant q₂).natAbs % 10 ^ decExp q₂) := by
      simpa using congrArg String.data h
    obtain ⟨hm, he⟩ := render_frac_inj hd
    exact eq_of_decExp_decMant h₁ h₂ he hm

theorem buildWeatherData_eq_some {d : List (String × GoVal)} {w : WeatherData} :
    buildWeatherData d = some w ↔
      ∃ info vis wind cov sun,
        extractWeatherInfo d = some info ∧ extractVisibility d = some vis ∧
        extractWindInfo d = some wind ∧ extractCloudCoverage d = some cov ∧
        extractSunriseSunset d = some sun ∧
        w = { weatherDescription := info.1,
              temperature := goFmtFloat info.2 ++ " Celsius",
              weatherType := classifyWeather info.2,
              visibility := vis, windSpeed := wind.1, windDirection := wind.2,
              cloudCoverage := cov, sunrise := sun.1, sunset := sun.2 } := by
  constructor
  · intro h
    rw [buildWeatherData] at h
    simp only [bind, Option.bind_eq_some, Option.some.injEq] at h
    obtain ⟨info, h1, vis, h2, wind, h3, cov, h4, sun, h5, hw⟩ := h
    exact ⟨info, vis, wind, cov, sun, h1, h2, h3, h4, h5, hw.symm⟩
  · rintro ⟨info, vis, wind, cov, sun, h1, h2, h3, h4, h5, rfl⟩
    rw [buildWeatherData]
    simp only [bind, Option.bind_eq_some, Option.some.injEq]
    exact ⟨info, h1, vis, h2, wind, h3, cov, h4, sun, h5, rfl⟩

theorem rawTemperature_of_extractWeatherInfo {d : List (String × GoVal)} {info : String × GoFloat}
    (h : extractWeatherInfo d = some info) : rawTemperature d = some info.2 := by
  rw [extractWeatherInfo] at h
  simp only [bind, Option.bind_eq_some, Option.some.injEq] at h
  obtain ⟨wa, h1, fst, h2, fo, h3, desc, h4, mo, h5, t, h6, h7⟩ := h
  rw [rawTemperature]
  simp only [bind, Option.bind_eq_some]
  exact ⟨mo, h5, by rw [h6, ← h7]⟩

theorem extractVisibility_renders {d : List (String × GoVal)} {s : String}
    (h : extractVisibility d = some s) :
    ∃ v, rawVisibility d = some v ∧ s = goFmtInt (Int.tdiv (GoFloat.toInt v) 1000) ++ " KM" := by
  rw [extractVisibility] at h
  simp only [bind, Option.bind_eq_some, Option.some.injEq] at h
  obtain ⟨v, h1, h2⟩ := h
  exact ⟨v, h1, h2.symm⟩

theorem extractWindInfo_renders {d : List (String × GoVal)} {p : String × String}
    (h : extractWindInfo d = some p) :
    ∃ sp dg, rawWindSpeed d = some sp ∧ rawWindDeg d = some dg ∧
      p.1 = goFmtFloat sp ++ " meter/sec" ∧ p.2 = goFmtInt (GoFloat.toInt dg) ++ " degrees" := by
  rw [extractWindInfo] at h
  simp only [bind, Option.bind_eq_some, Option.some.injEq] at h
  obtain ⟨wo, h1, sp, h2, dg, h3, h4⟩ := h
  refine ⟨sp, dg, ?_, ?_, ?_, ?_⟩
  · rw [rawWindSpeed]
    simp only [bind, Option.bind_eq_some]
    exact ⟨wo, h1, h2⟩
  · rw [rawWindDeg]
    simp only [bind, Option.bind_eq_some]
    exact ⟨wo, h1, h3⟩
  · rw [← h4]
  · rw [← h4]

theorem extractCloudCoverage_renders {d : List (String × GoVal)} {s : String}
    (h : extractCloudCoverage d = some s) :
    ∃ c, rawCloudAll d = some c ∧ s = goFmtInt (GoFloat.toInt c) ++ " percentage" := by
  rw [extractCloudCoverage] at h
  simp only [bind, Option.bind_eq_some, Option.some.injEq] at h
  obtain ⟨co, h1, c, h2, h3⟩ := h
  refine ⟨c, ?_, h3.symm⟩
  rw [rawCloudAll]
  simp only [bind, Option.bind_eq_some]
  exact ⟨co, h1, h2⟩

theorem goFloat_le_false_of_lt_ge {a b : ℚ} (hab : a ≤ b) {t : GoFloat}
    (h : GoFloat.lt (.finite b) t = true) : GoFloat.le t (.finite a) = false := by
  cases t with
  | nan => rfl
  | neginf => exact absurd h (by rw [show GoFloat.lt (.finite b) .neginf = false from rfl]; simp)
  | posinf => rfl
  | finite c =>
    have hbc : b < c := of_decide_eq_true h
    exact decide_eq_false (not_le.mpr (lt_of_le_of_lt hab hbc))

/-- C2: for every temperature `t` (a 64-bit float, compared with the IEEE
ordering the Go code evaluates), `classifyWeather` returns "cold" when
t ≤ 10, "moderate" when 10 < t ≤ 25 and "hot" when t > 25: the
boundaries 10 and 25 are inclusive in the lower class. -/
theorem classify_boundaries (t : GoFloat) :
    (GoFloat.le t (.finite 10) = true → classifyWeather t = "cold") ∧
    (GoFloat.lt (.finite 10) t = true → GoFloat.le t (.finite 25) = true →
      classifyWeather t = "moderate") ∧
    (GoFloat.lt (.finite 25) t = true → classifyWeather t = "hot") := by
  refine ⟨?_, ?_, ?_⟩
  · intro h
    simp [classifyWeather, h]
  · intro h1 h2
    have h10 := goFloat_le_false_of_lt_ge le_rfl h1
    simp [classifyWeather, h10, h2]
  · intro h
    have h25 := goFloat_le_false_of_lt_ge le_rfl h
    have h10 := goFloat_le_false_of_lt_ge (by norm_num : (10:ℚ) ≤ 25) h
    simp [classifyWeather, h10, h25]

/-- Witness for C2 at the spec's boundary inputs 10, 10.01, 25, 25.01. -/
theorem classify_boundaries_witness :
    classifyWeather (.finite 10) = "cold" ∧
    classifyWeather (.finite (mkRat 1001 100)) = "moderate" ∧
    classifyWeather (.finite 25) = "moderate" ∧
    classifyWeather (.finite (mkRat 2501 100)) = "hot" :=
  ⟨(classify_boundaries _).1 (by decide),
   (classify_boundaries _).2.1 (by decide) (by decide),
   (classify_boundaries _).2.1 (by decide) (by decide),
   (classify_boundaries _).2.2 (by decide)⟩

/-- C10: `classifyWeather` is total and its range is exactly the three
strings "cold" / "moderate" / "hot", each attained; NaN, for which every
ordering comparison evaluates to false, falls through both guards and is
classified "hot". -/
theorem classify_total_range (t : GoFloat) :
    (classifyWeather t = "cold" ∨ classifyWeather t = "moderate" ∨ classifyWeather t = "hot") ∧
    classifyWeather GoFloat.nan = "hot" ∧
    GoFloat.le GoFloat.nan (.finite 10) = false ∧ GoFloat.lt (.finite 10) GoFloat.nan = false ∧
    GoFloat.le GoFloat.nan (.finite 25) = false ∧ GoFloat.lt (.finite 25) GoFloat.nan = false ∧
    classifyWeather (.finite 5) = "cold" ∧ classifyWeather (.finite 20) = "moderate" ∧
    classifyWeather (.finite 30) = "hot" := by
  refine ⟨?_, by decide, by decide, by decide, by decide, by decide, by decide, by decide,
    by decide⟩
  rw [classifyWeather]
  split_ifs <;> simp

/-- C4: the visibility conversion truncates toward zero (integer
division, not rounding) and renders "<v> KM": the spec's five samples
0, 999, 1000, 1999, 10000 produce "0 KM", "0 KM", "1 KM", "1 KM",
"10 KM"; a negative sample distinguishes truncation toward zero from
flooring; and for every natural meters value the rendered quantity is
the truncating division by 1000. -/
theorem visibility_truncation :
    extractVisibility [("visibility", .num (.finite 0))] = some "0 KM" ∧
    extractVisibility [("visibility", .num (.finite 999))] = some "0 KM" ∧
    extractVisibility [("visibility", .num (.finite 1000))] = some "1 KM" ∧
    extractVisibility [("visibility", .num (.finite 1999))] = some "1 KM" ∧
    extractVisibility [("visibility", .num (.finite 10000))] = some "10 KM" ∧
    extractVisibility [("visibility", .num (.finite (-1500)))] = some "-1 KM" ∧
    (∀ n : Nat, extractVisibility [("visibility", .num (.finite (n : ℚ)))] =
      some (goFmtNat (n / 1000) ++ " KM")) := by
  refine ⟨by decide, by decide, by decide, by decide, by decide, by decide, ?_⟩
  intro n
  have hbase : extractVisibility [("visibility", .num (.finite (n : ℚ)))] =
      some (goFmtInt (Int.tdiv (GoFloat.toInt (.finite (n : ℚ))) 1000) ++ " KM") := rfl
  rw [hbase]
  have h1 : GoFloat.toInt (.finite (n : ℚ)) = (n : ℤ) := by
    show Int.tdiv (n : ℚ).num (((n : ℚ).den : ℕ) : ℤ) = (n : ℤ)
    rw [Rat.num_natCast, Rat.den_natCast, Nat.cast_one, Int.tdiv_one]
  rw [h1]
  have h2 : Int.tdiv (n : ℤ) 1000 = Int.ofNat (n / 1000) := rfl
  rw [h2]
  rfl

/-- C5: on the spec's well-formed fixture (description "clear sky", temp
15.3, visibility 8000, wind 3.1 m/s at 180°, clouds 40 %, sunrise
1700000000, sunset 1700040000) the Fetcher's extraction produces exactly
the summary with weather_type "moderate", temperature "15.3 Celsius",
visibility "8 KM", wind_speed "3.1 meter/sec", wind_direction
"180 degrees", cloud_coverage "40 percentage" and the two epoch-converted
instants. -/
theorem fixture_roundtrip :
    buildWeatherData fixtureDoc = some fixtureSummary ∧
    getWeather (.finite 1) (.finite 2) (fun _ => .doc fixtureDoc) = .ok fixtureSummary ∧
    fixtureSummary.weatherType = "moderate" ∧
    fixtureSummary.temperature = "15.3 Celsius" ∧
    fixtureSummary.visibility = "8 KM" ∧
    fixtureSummary.windSpeed = "3.1 meter/sec" ∧
    fixtureSummary.windDirection = "180 degrees" ∧
    fixtureSummary.cloudCoverage = "40 percentage" ∧
    fixtureSummary.sunrise = ⟨1700000000⟩ ∧ fixtureSummary.sunset = ⟨1700040000⟩ :=
  ⟨by decide, by decide, rfl, rfl, rfl, rfl, rfl, rfl, rfl, rfl⟩

/-- C1 (code finding): on the spec's missing-`wind` fixture the code does
not fail with a returned (ShapeError-like) error at all: the unchecked
type assertion `data["wind"].(map[string]interface{})` panics, so
`getWeather` ends in the panic outcome, not an error return; the panic is
raised on the goroutine spawned by `getWeatherWithContext`, where no
recover exists, so by Go runtime semantics the process dies before any
response is written — the handler never answers 500 and the failure is
process-fatal. -/
theorem missing_wind_is_panic_not_error :
    extractWindInfo fixtureNoWind = none ∧
    buildWeatherData fixtureNoWind = none ∧
    getWeather (.finite 1) (.finite 2) (fun _ => .doc fixtureNoWind) = .panicked ∧
    WeatherHandler "1" "2" ⟨1, .panicked⟩ = ⟨none, false⟩ :=
  ⟨by decide, by decide, by decide, by decide⟩

/-- C6: the handler parses `lat` first — when it is missing (empty
string) or non-numeric the response is 400 "Invalid latitude" whatever
`lon` or the upstream would do (so `lon` is never evaluated) — and when
`lat` parses but `lon` is missing or non-numeric the response is 400
"Invalid longitude". -/
theorem handler_param_validation :
    (∀ (latS lonS : String) (u : TimedFetch), goParseFloat latS = none →
      WeatherHandler latS lonS u = ⟨some (0, 400, .text "Invalid latitude"), true⟩) ∧
    (∀ (latS lonS₁ lonS₂ : String) (u₁ u₂ : TimedFetch), goParseFloat latS = none →
      WeatherHandler latS lonS₁ u₁ = WeatherHandler latS lonS₂ u₂) ∧
    (∀ (latS lonS : String) (u : TimedFetch), (goParseFloat latS).isSome = true →
      goParseFloat lonS = none →
      WeatherHandler latS lonS u = ⟨some (0, 400, .text "Invalid longitude"), true⟩) ∧
    goParseFloat "" = none ∧ goParseFloat "abc" = none := by
  refine ⟨?_, ?_, ?_, by decide, by decide⟩
  · intro latS lonS u h
    simp only [WeatherHandler, h]
  · intro latS lonS₁ lonS₂ u₁ u₂ h
    simp only [WeatherHandler, h]
  · intro latS lonS u h1 h2
    obtain ⟨la, hla⟩ := Option.isSome_iff_exists.mp h1
    simp only [WeatherHandler, hla, h2]

/-- Witness for C6: `lat=abc&lon=5` answers the latitude message, and
`lat=5&lon=abc` answers the longitude message. -/
theorem handler_param_validation_witness :
    WeatherHandler "abc" "5" ⟨1, .err .transportError⟩ =
      ⟨some (0, 400, .text "Invalid latitude"), true⟩ ∧
    WeatherHandler "5" "abc" ⟨1, .err .transportError⟩ =
      ⟨some (0, 400, .text "Invalid longitude"), true⟩ :=
  ⟨handler_param_validation.1 "abc" "5" ⟨1, .err .transportError⟩ (by decide),
   handler_param_validation.2.2.1 "5" "abc" ⟨1, .err .transportError⟩ (by decide) (by decide)⟩

/-- C7: the deadline is the fixed constant 5 seconds — the handler model
has no per-request timeout input — `getWeatherWithContext` returns
`ctx.Err()` at the deadline whenever the upstream latency exceeds it, and
for any parsed coordinates the handler writes the 500 response at second
5, strictly before the upstream call would have returned. -/
theorem handler_timeout_five_seconds :
    timeoutSeconds = 5 ∧
    (∀ u : TimedFetch, timeoutSeconds < u.latency →
      getWeatherWithContext u = .err timeoutSeconds .deadlineExceeded) ∧
    (∀ (latS lonS : String) (u : TimedFetch),
      (goParseFloat latS).isSome = true → (goParseFloat lonS).isSome = true →
      timeoutSeconds < u.latency →
      (WeatherHandler latS lonS u).response =
        some (timeoutSeconds, 500, .text "Failed to fetch weather data")) := by
  refine ⟨rfl, ?_, ?_⟩
  · intro u h
    rw [getWeatherWithContext, if_pos h]
  · intro latS lonS u h1 h2 h3
    obtain ⟨la, hla⟩ := Option.isSome_iff_exists.mp h1
    obtain ⟨lo, hlo⟩ := Option.isSome_iff_exists.mp h2
    have hctx : getWeatherWithContext u = .err timeoutSeconds .deadlineExceeded := by
      rw [getWeatherWithContext, if_pos h3]
    simp only [WeatherHandler, hla, hlo, hctx]

/-- Witness for C7: a 6-second upstream behind valid coordinates. -/
theorem handler_timeout_five_seconds_witness :
    (WeatherHandler "1" "2" ⟨6, .err .transportError⟩).response =
      some (timeoutSeconds, 500, .text "Failed to fetch weather data") :=
  handler_timeout_five_seconds.2.2 "1" "2" ⟨6, .err .transportError⟩
    (by decide) (by decide) (by decide)

/-- C8: for every coordinate pair and upstream behaviour, `getWeather`
either returns a summary, returns an error, or panics — and on the
success path the summary is fully populated: every one of the nine fields
equals the output of its extractor on the decoded document, so no failure
path can deliver a partial summary. -/
theorem fetch_all_or_nothing :
    (∀ (lat lon : GoFloat) (upstream : String → UpstreamData),
      (∃ w, getWeather lat lon upstream = .ok w) ∨
      (∃ e, getWeather lat lon upstream = .err e) ∨
      getWeather lat lon upstream = .panicked) ∧
    (∀ (lat lon : GoFloat) (upstream : String → UpstreamData)
        (d : List (String × GoVal)) (w : WeatherData),
      upstream (buildURL lat lon) = .doc d → getWeather lat lon upstream = .ok w →
      buildWeatherData d = some w) ∧
    (∀ (d : List (String × GoVal)) (w : WeatherData), buildWeatherData d = some w →
      ∃ info vis wind cov sun,
        extractWeatherInfo d = some info ∧ extractVisibility d = some vis ∧
        extractWindInfo d = some wind ∧ extractCloudCoverage d = some cov ∧
        extractSunriseSunset d = some sun ∧
        w.weatherDescription = info.1 ∧ w.temperature = goFmtFloat info.2 ++ " Celsius" ∧
        w.weatherType = classifyWeather info.2 ∧ w.visibility = vis ∧
        w.windSpeed = wind.1 ∧ w.windDirection = wind.2 ∧ w.cloudCoverage = cov ∧
        w.sunrise = sun.1 ∧ w.sunset = sun.2) := by
  refine ⟨?_, ?_, ?_⟩
  · intro lat lon upstream
    cases hu : upstream (buildURL lat lon) with
    | transportFailure =>
      refine Or.inr (Or.inl ⟨.transportError, ?_⟩)
      simp only [getWeather]
      rw [hu]
    | decodeFailure =>
      refine Or.inr (Or.inl ⟨.decodeError, ?_⟩)
      simp only [getWeather]
      rw [hu]
    | doc d =>
      have hget : getWeather lat lon upstream =
          (match buildWeatherData d with
           | some w => FetchOutcome.ok w
           | none => FetchOutcome.panicked) := by
        simp only [getWeather]
        rw [hu]
      cases hb : buildWeatherData d with
      | none => exact Or.inr (Or.inr (by rw [hget, hb]))
      | some w => exact Or.inl ⟨w, by rw [hget, hb]⟩
  · intro lat lon upstream d w hup hok
    have hget : getWeather lat lon upstream =
        (match buildWeatherData d with
         | some w => FetchOutcome.ok w
         | none => FetchOutcome.panicked) := by
      simp only [getWeather]
      rw [hup]
    rw [hget] at hok
    cases hb : buildWeatherData d with
    | none =>
      rw [hb] at hok
      exact absurd hok (by simp)
    | some w0 =>
      rw [hb] at hok
      have hok2 : FetchOutcome.ok w0 = FetchOutcome.ok w := hok
      have hw : w0 = w := by injection hok2
      rw [hw]
  · intro d w hb
    obtain ⟨info, vis, wind, cov, sun, h1, h2, h3, h4, h5, rfl⟩ :=
      buildWeatherData_eq_some.mp hb
    exact ⟨info, vis, wind, cov, sun, h1, h2, h3, h4, h5,
      rfl, rfl, rfl, rfl, rfl, rfl, rfl, rfl, rfl⟩

/-- Witness for C8: on the fixture upstream the success path delivers
exactly the fixture summary. -/
theorem fetch_all_or_nothing_witness :
    buildWeatherData fixtureDoc = some fixtureSummary :=
  fetch_all_or_nothing.2.1 (.finite 1) (.finite 2) (fun _ => .doc fixtureDoc)
    fixtureDoc fixtureSummary rfl (by decide)

/-- C9: the request URL is the fixed endpoint with both coordinates
rendered by `%.6f` — an optional sign, an integer part, a dot and
exactly six fractional digit characters — the compiled-in API key
constant, and the metric units flag. -/
theorem url_six_decimal_format :
    API_KEY = "346f820b8b57367bb052d099256c939d" ∧
    (∀ lat lon : GoFloat,
      buildURL lat lon = "https://api.openweathermap.org/data/2.5/weather?lat=" ++ goFmt6 lat ++
        "&lon=" ++ goFmt6 lon ++ "&appid=" ++ API_KEY ++ "&units=metric") ∧
    (∀ q : ℚ, ∃ pre post : List Char,
      (goFmt6 (.finite q)).data = pre ++ '.' :: post ∧ post.length = 6 ∧
      ('.' : Char) ∉ pre ∧ ∀ c ∈ post, c.isDigit = true) := by
  refine ⟨rfl, fun lat lon => rfl, ?_⟩
  intro q
  refine ⟨(if q < 0 then ['-'] else []) ++ natRepr ((round (|q| * 10 ^ 6)).toNat / 10 ^ 6),
    padChars 6 ((round (|q| * 10 ^ 6)).toNat % 10 ^ 6), rfl,
    padChars_length (Nat.mod_lt _ (by norm_num)), ?_, ?_⟩
  · intro hmem
    rcases List.mem_append.mp hmem with h | h
    · by_cases hq : q < 0
      · rw [if_pos hq] at h
        rw [List.mem_singleton] at h
        exact absurd h (by decide)
      · rw [if_neg hq] at h
        cases h
    · exact dot_not_mem_natRepr _ h
  · intro c hc
    exact mem_padChars_isDigit hc

/-- C3: the weather classification in the assembled summary depends on
the document only through the extracted temperature (a deterministic pure
function of it), the assembled string fields are pure renderings of the
raw numeric values extracted from the document with their unit suffixes,
and the renderings are lossless — the integer rendering is injective and
the float rendering is injective on the decimal rationals, so formatting
never alters (loses or conflates) the numeric values it receives. -/
theorem classification_pure_and_formatting_lossless :
    (∀ (d₁ d₂ : List (String × GoVal)) (w₁ w₂ : WeatherData),
      buildWeatherData d₁ = some w₁ → buildWeatherData d₂ = some w₂ →
      (extractWeatherInfo d₁).map (fun p => p.2) = (extractWeatherInfo d₂).map (fun p => p.2) →
      w₁.weatherType = w₂.weatherType) ∧
    (∀ (d : List (String × GoVal)) (w : WeatherData), buildWeatherData d = some w →
      (∃ t, rawTemperature d = some t ∧ w.temperature = goFmtFloat t ++ " Celsius" ∧
        w.weatherType = classifyWeather t) ∧
      (∃ v, rawVisibility d = some v ∧
        w.visibility = goFmtInt (Int.tdiv (GoFloat.toInt v) 1000) ++ " KM") ∧
      (∃ s, rawWindSpeed d = some s ∧ w.windSpeed = goFmtFloat s ++ " meter/sec") ∧
      (∃ g, rawWindDeg d = some g ∧ w.windDirection = goFmtInt (GoFloat.toInt g) ++ " degrees") ∧
      (∃ c, rawCloudAll d = some c ∧ w.cloudCoverage = goFmtInt (GoFloat.toInt c) ++ " percentage")) ∧
    (∀ i j : Int, goFmtInt i = goFmtInt j → i = j) ∧
    (∀ q₁ q₂ : ℚ, IsDecimal q₁ → IsDecimal q₂ →
      goFmtFloat (.finite q₁) = goFmtFloat (.finite q₂) → q₁ = q₂) := by
  refine ⟨?_, ?_, fun i j h => goFmtInt_injective h,
    fun q₁ q₂ h₁ h₂ h => goFmtFloat_finite_injective h₁ h₂ h⟩
  · intro d₁ d₂ w₁ w₂ hb₁ hb₂ ht
    obtain ⟨i₁, v₁, wi₁, c₁, s₁, e₁, _, _, _, _, rfl⟩ := buildWeatherData_eq_some.mp hb₁
    obtain ⟨i₂, v₂, wi₂, c₂, s₂, e₂, _, _, _, _, rfl⟩ := buildWeatherData_eq_some.mp hb₂
    rw [e₁, e₂] at ht
    simp only [Option.map_some', Option.some.injEq] at ht
    show classifyWeather i₁.2 = classifyWeather i₂.2
    rw [ht]
  · intro d w hb
    obtain ⟨info, vis, wind, cov, sun, h1, h2, h3, h4, h5, rfl⟩ :=
      buildWeatherData_eq_some.mp hb
    refine ⟨⟨info.2, rawTemperature_of_extractWeatherInfo h1, rfl, rfl⟩, ?_, ?_, ?_, ?_⟩
    · obtain ⟨v, hv, he⟩ := extractVisibility_renders h2
      exact ⟨v, hv, he⟩
    · obtain ⟨sp, dg, hsp, _, hs1, _⟩ := extractWindInfo_renders h3
      exact ⟨sp, hsp, hs1⟩
    · obtain ⟨sp, dg, _, hdg, _, hs2⟩ := extractWindInfo_renders h3
      exact ⟨dg, hdg, hs2⟩
    · obtain ⟨c, hc, he⟩ := extractCloudCoverage_renders h4
      exact ⟨c, hc, he⟩

/-- Witness for C3 at the fixture document and concrete values. -/
theorem classification_pure_and_formatting_lossless_witness :
    fixtureSummary.weatherType = fixtureSummary.weatherType ∧
    (180 : ℤ) = 180 ∧
    mkRat 153 10 = mkRat 153 10 ∧
    fixtureSummary.temperature = goFmtFloat (.finite (mkRat 153 10)) ++ " Celsius" := by
  refine ⟨classification_pure_and_formatting_lossless.1 fixtureDoc fixtureDoc fixtureSummary
      fixtureSummary (by decide) (by decide) rfl,
    classification_pure_and_formatting_lossless.2.2.1 180 180 rfl,
    classification_pure_and_formatting_lossless.2.2.2 (mkRat 153 10) (mkRat 153 10)
      (by decide) (by decide) rfl, ?_⟩
  obtain ⟨⟨t, ht, htemp, _⟩, _⟩ :=
    classification_pure_and_formatting_lossless.2.1 fixtureDoc fixtureSummary (by decide)
  have h2 : rawTemperature fixtureDoc = some (.finite (mkRat 153 10)) := by decide
  rw [ht] at h2
  have hteq : t = .finite (mkRat 153 10) := by injection h2
  rw [htemp, hteq]

/-- Witness for C4: the 1999-meter instance of the general truncating
formula. -/
theorem visibility_truncation_witness :
    extractVisibility [("visibility", .num (.finite ((1999 : ℕ) : ℚ)))] =
      some (goFmtNat (1999 / 1000) ++ " KM") :=
  visibility_truncation.2.2.2.2.2.2 1999

/-- Witness for C9 at the coordinate pair (1, 2). -/
theorem url_six_decimal_format_witness :
    buildURL (.finite 1) (.finite 2) =
      "https://api.openweathermap.org/data/2.5/weather?lat=" ++ goFmt6 (.finite 1) ++
        "&lon=" ++ goFmt6 (.finite 2) ++ "&appid=" ++ API_KEY ++ "&units=metric" :=
  url_six_decimal_format.2.1 (.finite 1) (.finite 2)

/-- Witness for C10 at the NaN input. -/
theorem classify_total_range_witness :
    classifyWeather GoFloat.nan = "hot" :=
  (classify_total_range GoFloat.nan).2.1
